import Mathlib

/-!
Verification of the s3chunk upload broker.

The definitions below are a shallow embedding of the repository source:
machine integers (JavaScript BigInt) become Lean Int, fallible code returns
Except, and stateful methods thread their state explicitly. Each definition
carries a comment naming the source location it was translated from.
-/

namespace S3Chunk

/-! ## Snowflake identifier generator, from src/src/jose.ts lines 50 to 142. -/

/-- Custom epoch constant (February 5, 2025), jose.ts line 51. -/
def EPOCH : Int := 1738693800000

/-- Bit allocation constants, jose.ts lines 55 to 57. -/
def WORKER_ID_BITS : Int := 5

def DATACENTER_ID_BITS : Int := 5

def SEQUENCE_BITS : Int := 12

/-- MAX_WORKER_ID, jose.ts line 60: -1n ^ (-1n << WORKER_ID_BITS). -/
def MAX_WORKER_ID : Int := Int.xor (-1) ((-1 : Int) <<< WORKER_ID_BITS)

/-- MAX_DATACENTER_ID, jose.ts line 61. -/
def MAX_DATACENTER_ID : Int := Int.xor (-1) ((-1 : Int) <<< DATACENTER_ID_BITS)

/-- WORKER_ID_SHIFT, jose.ts line 64. -/
def WORKER_ID_SHIFT : Int := SEQUENCE_BITS

/-- DATACENTER_ID_SHIFT, jose.ts line 65. -/
def DATACENTER_ID_SHIFT : Int := SEQUENCE_BITS + WORKER_ID_BITS

/-- TIMESTAMP_SHIFT, jose.ts line 66. -/
def TIMESTAMP_SHIFT : Int := SEQUENCE_BITS + WORKER_ID_BITS + DATACENTER_ID_BITS

/-- Sequence mask -1n ^ (-1n << SEQUENCE_BITS), jose.ts line 117. -/
def SEQUENCE_MASK : Int := Int.xor (-1) ((-1 : Int) <<< SEQUENCE_BITS)

/-- The immutable fields of a SnowflakeGenerator (jose.ts lines 71 to 72). -/
structure SnowflakeGenerator where
  workerId : Int
  datacenterId : Int
deriving DecidableEq, Repr

/-- The constructor of SnowflakeGenerator (jose.ts lines 79 to 89): range
checks on workerId and datacenterId; a range violation throws. -/
def mkSnowflakeGenerator (workerId datacenterId : Int) : Except String SnowflakeGenerator :=
  if workerId < 0 ∨ workerId > MAX_WORKER_ID then
    Except.error "Worker ID must be between 0 and 31"
  else if datacenterId < 0 ∨ datacenterId > MAX_DATACENTER_ID then
    Except.error "Datacenter ID must be between 0 and 31"
  else
    Except.ok ⟨workerId, datacenterId⟩

/-- The mutable fields of a SnowflakeGenerator (jose.ts lines 69 to 70). -/
structure SnowflakeState where
  sequence : Int
  lastTimestamp : Int
deriving DecidableEq, Repr

/-- Initial generator state: sequence = 0n, lastTimestamp = -1n
(jose.ts lines 69 to 70). -/
def initialState : SnowflakeState := ⟨0, -1⟩

/-- Assembly of the 64-bit id (jose.ts lines 130 to 135):
((timestamp - EPOCH) << TIMESTAMP_SHIFT) | (datacenterId << DATACENTER_ID_SHIFT)
| (workerId << WORKER_ID_SHIFT) | sequence, on BigInt, hence on Int. -/
def assembleId (g : SnowflakeGenerator) (timestamp sequence : Int) : Int :=
  Int.lor
    (Int.lor
      (Int.lor ((timestamp - EPOCH) <<< TIMESTAMP_SHIFT)
        (g.datacenterId <<< DATACENTER_ID_SHIFT))
      (g.workerId <<< WORKER_ID_SHIFT))
    sequence

/-- One nextId() call (jose.ts lines 107 to 136). `t` is the Date.now()
sample read on entry; `tNext` is the sample tilNextMillis would return in the
sequence-overflow branch (jose.ts lines 95 to 101: the first clock sample
strictly greater than its argument, which in that branch equals `t`). The
thrown clock-skew error leaves the fields untouched, so the pair returns the
unchanged state alongside the error. -/
def nextIdRun (g : SnowflakeGenerator) (st : SnowflakeState) (t tNext : Int) :
    Except String Int × SnowflakeState :=
  if t < st.lastTimestamp then
    (Except.error "Clock moved backwards. Refusing to generate id.", st)
  else
    let p : Int × Int :=
      if st.lastTimestamp = t then
        let s := Int.land (st.sequence + 1) SEQUENCE_MASK
        if s = 0 then (s, tNext) else (s, t)
      else
        (0, t)
    (Except.ok (assembleId g p.2 p.1), ⟨p.1, p.2⟩)

/-- One observed clock pair for one nextId() call: the entry sample `t` and
the sample `tNext` that tilNextMillis would return. -/
structure ClockObs where
  t : Int
  tNext : Int
deriving DecidableEq, Repr

/-- Run a finite sequence of nextId() calls on one generator instance,
collecting the ids; none if any call throws. -/
def runIds (g : SnowflakeGenerator) (st : SnowflakeState) :
    List ClockObs → Option (List Int × SnowflakeState)
  | [] => some ([], st)
  | o :: os =>
    match nextIdRun g st o.t o.tNext with
    | (Except.error _, _) => none
    | (Except.ok i, st1) =>
      match runIds g st1 os with
      | none => none
      | some (ids, st2) => some (i :: ids, st2)

/-- A clock trace is valid for a run when the clock never moves backward:
each entry sample is at least the last timestamp the generator has seen (that
timestamp is itself an earlier sample, or the initial -1), and each
tilNextMillis result is strictly later than the entry sample, which is the
postcondition of the busy-wait loop of jose.ts lines 95 to 101. -/
def validFrom (g : SnowflakeGenerator) (st : SnowflakeState) : List ClockObs → Bool
  | [] => true
  | o :: os =>
    decide (st.lastTimestamp ≤ o.t) && decide (o.t < o.tNext) &&
      validFrom g (nextIdRun g st o.t o.tNext).2 os

/-- State invariant maintained by nextId: the sequence counter stays inside
its 12-bit field. -/
def StateOk (st : SnowflakeState) : Prop :=
  0 ≤ st.sequence ∧ st.sequence < 4096

/-- Generator invariant established by the constructor checks. -/
def GenOk (g : SnowflakeGenerator) : Prop :=
  0 ≤ g.workerId ∧ g.workerId ≤ 31 ∧ 0 ≤ g.datacenterId ∧ g.datacenterId ≤ 31

/-- getSnowflakeGenerator (jose.ts lines 139 to 142): constructs a brand-new
SnowflakeGenerator (so sequence 0 and lastTimestamp -1) with default worker
and datacenter id 1, performs a single nextId() call on it, and returns the
decimal string of the id. Every call site passes an empty option object, so
both ids default to 1. -/
def getSnowflakeGenerator (workerId datacenterId : Int) (t tNext : Int) :
    Except String String :=
  match mkSnowflakeGenerator workerId datacenterId with
  | Except.error e => Except.error e
  | Except.ok g =>
    match (nextIdRun g initialState t tNext).1 with
    | Except.error e => Except.error e
    | Except.ok i => Except.ok (toString i)

/-! ## Field-level envelope encryption.

The jose library primitives (CompactEncrypt with alg dir / enc A256GCM, and
compactDecrypt) are an external dependency, modelled symbolically as an
authenticated encryption: a compact JWE is represented by its plaintext
payload together with the key that sealed it, and decryption succeeds exactly
under that key. TextEncoder and TextDecoder are modelled as the code-point
byte sequence of the string. Keys are represented by their decoded byte
lists (the base64 decoding performed by Buffer.from and atob is a platform
bijection and is absorbed into the representation). -/

/-- Symbolic model of a compact-serialization JWE produced by the jose
CompactEncrypt primitive with the dir algorithm. -/
structure JWECompact where
  enc : String
  payload : List Nat
  jweKey : List Nat
deriving DecidableEq, Repr

/-- Symbolic CompactEncrypt with protected header alg dir, enc A256GCM. -/
def compactEncryptDir (payload : List Nat) (key : List Nat) : JWECompact :=
  ⟨"A256GCM", payload, key⟩

/-- Symbolic compactDecrypt: returns the payload exactly when the supplied
key is the sealing key, otherwise fails (AEAD authenticity). -/
def compactDecrypt (jwe : JWECompact) (key : List Nat) : Option (List Nat) :=
  if jwe.jweKey = key then some jwe.payload else none

/-- TextEncoder().encode, as the code-point sequence of the string. -/
def textEncode (s : String) : List Nat :=
  s.data.map Char.toNat

/-- TextDecoder().decode, inverse of textEncode. -/
def textDecode (bs : List Nat) : String :=
  String.mk (bs.map Char.ofNat)

/-- The startup master-key length check of src/src/index.ts lines 56 to 59:
Buffer.from(env.ENCRYPTION_KEY, base64) must decode to exactly 32 bytes,
otherwise module evaluation throws and the process never starts serving. -/
def startupCheckMasterKey (masterKey : List Nat) : Except String (List Nat) :=
  if masterKey.length ≠ 32 then
    Except.error "Invalid ENCRYPTION_KEY length. Must be 32 bytes (256 bits) for A256GCM."
  else
    Except.ok masterKey

/-- encryptSecret of src/src/index.ts lines 68 to 77: CompactEncrypt of the
encoded plaintext under the module-level master key. -/
def encryptSecret (masterKey : List Nat) (plaintext : String) : JWECompact :=
  compactEncryptDir (textEncode plaintext) masterKey

/-- decryptSecret of src/src/index.ts lines 84 to 93: compactDecrypt under
the module-level master key, with any library failure caught and replaced by
one generic error. No key-length check appears here. -/
def decryptSecret (masterKey : List Nat) (jwe : JWECompact) : Except String String :=
  match compactDecrypt jwe masterKey with
  | some pt => Except.ok (textDecode pt)
  | none => Except.error "Failed to decrypt secret."

/-- decryptSecret of src/src/jose.ts lines 18 to 25: decodes the key argument
and checks its length on every call, throwing the 32-byte error before
calling compactDecrypt; a library decryption failure propagates uncaught
(modelled by its thrown-error name). -/
def joseDecryptSecret (encrypted : JWECompact) (key : List Nat) : Except String String :=
  if key.length ≠ 32 then
    Except.error "Decoded ENCRYPTION_KEY is not 32 bytes long!"
  else
    match compactDecrypt encrypted key with
    | some pt => Except.ok (textDecode pt)
    | none => Except.error "JWEDecryptionFailed"

/-! ## Upload coordinator handlers, from src/unnamed/part_003.

The D1 files table is a list of rows; prepared INSERT appends a row and
prepared UPDATE maps the matching rows. The storage backend response to the
signed finalize call is the boolean response.ok of the fetch. JSON request
fields are Option values (absent maps to none) and JavaScript truthiness of
a string is nonemptiness, of a number is nonzeroness. -/

/-- Status column values used by the handlers. -/
inductive FileStatus where
  | pending
  | completed
  | failed
deriving DecidableEq, Repr

/-- One row of the files table (columns of the INSERT statements in
part_003). -/
structure FileRow where
  id : String
  key : String
  file_name : String
  size_bytes : Option Int
  content_type : Option String
  bucket_name : String
  bucket_id : Int
  status : FileStatus
  completed_at : Option Int
deriving DecidableEq, Repr

/-- The bucket configuration resolved by the files middleware
(part_003 lines 104 to 112). -/
structure BucketConfig where
  id : Int
  name : String
  region : String
  endpoint : String
  cdnUrl : String
deriving DecidableEq, Repr

/-- JavaScript truthiness of an optional string field: present and
nonempty. -/
def truthyStr : Option String → Bool
  | none => false
  | some s => s ≠ ""

/-- JavaScript truthiness of an optional number field: present and
nonzero. -/
def truthyNum : Option Int → Bool
  | none => false
  | some n => n ≠ 0

/-- One entry of the parts array of a multipart completion request. -/
structure PartEntry where
  PartNumber : Int
  ETag : String
deriving DecidableEq, Repr

/-- The JSON value bound to the parts field: absent or null, a non-array
value (with its truthiness), or an array. -/
inductive PartsField where
  | missing
  | nonArray (truthy : Bool)
  | arr (l : List PartEntry)
deriving DecidableEq, Repr

/-- JavaScript falsiness of the parts value; arrays are always truthy,
including the empty array. -/
def partsFalsy : PartsField → Bool
  | PartsField.missing => true
  | PartsField.nonArray t => !t
  | PartsField.arr _ => false

/-- Array.isArray on the parts value. -/
def partsIsArray : PartsField → Bool
  | PartsField.arr _ => true
  | _ => false

/-- The array elements of the parts value (only used after the isArray
check). -/
def partsList : PartsField → List PartEntry
  | PartsField.arr l => l
  | _ => []

/-- Body of a POST multipart/complete request (part_003 line 288). -/
structure MultipartCompleteRequest where
  fileId : Option String
  key : Option String
  uploadId : Option String
  parts : PartsField
  sizeBytes : Option Int
deriving DecidableEq, Repr

/-- Body of a POST complete request (part_003 line 213). -/
structure CompleteRequest where
  fileId : Option String
  key : Option String
  fileName : Option String
  sizeBytes : Option Int
  contentType : Option String
deriving DecidableEq, Repr

/-- Responses the two completion handlers can produce. -/
inductive HandlerResponse where
  | jsonError (msg : String) (status : Nat)
  | completeOk (fileId : String)
  | multipartOk (finalUrl : String)
deriving DecidableEq, Repr

/-- Prepared UPDATE ... WHERE id = fileId over the files table. -/
def updateRows (db : List FileRow) (fid : String) (f : FileRow → FileRow) : List FileRow :=
  db.map fun r => if r.id = fid then f r else r

/-- The XML manifest built by multipart/complete (part_003 lines 295 to
297). -/
def xmlBody (parts : List PartEntry) : String :=
  "<CompleteMultipartUpload>" ++
    String.join (parts.map fun p =>
      "<Part><PartNumber>" ++ toString p.PartNumber ++ "</PartNumber><ETag>" ++
        p.ETag ++ "</ETag></Part>") ++
  "</CompleteMultipartUpload>"

/-- Outcome of one multipart/complete request: the resulting files table,
the HTTP response, whether the signed finalize call reached the backend, and
the manifest it carried. -/
structure MultipartCompleteResult where
  db : List FileRow
  response : HandlerResponse
  backendCalled : Bool
  signedBody : Option String
deriving DecidableEq, Repr

/-- The POST multipart/complete handler (part_003 lines 285 to 321).
Validation (line 290) requires truthy fileId, key, uploadId, a truthy parts
value that Array.isArray accepts, and nothing about sizeBytes. After
validation the XML manifest is built, the signed finalize call is issued
(backendOk is response.ok), and one UPDATE runs: on non-success status is
set to failed (line 311); on success status, completed_at and size_bytes are
set (lines 316 to 318) and the response carries cdnUrl/key (line 320). -/
def multipartComplete (bucketConfig : BucketConfig) (db : List FileRow)
    (req : MultipartCompleteRequest) (backendOk : Bool) (now : Int) :
    MultipartCompleteResult :=
  if ¬ truthyStr req.fileId ∨ ¬ truthyStr req.key ∨ ¬ truthyStr req.uploadId ∨
      partsFalsy req.parts ∨ ¬ partsIsArray req.parts then
    ⟨db, HandlerResponse.jsonError "key, uploadId, and an array of parts are required" 400,
      false, none⟩
  else
    let fid := req.fileId.getD ""
    let k := req.key.getD ""
    let body := xmlBody (partsList req.parts)
    if ¬ backendOk then
      ⟨updateRows db fid (fun r => { r with status := FileStatus.failed }),
        HandlerResponse.jsonError "Failed to complete multipart upload" 500, true, some body⟩
    else
      ⟨updateRows db fid (fun r =>
          { r with status := FileStatus.completed, completed_at := some now,
                   size_bytes := req.sizeBytes }),
        HandlerResponse.multipartOk (bucketConfig.cdnUrl ++ "/" ++ k), true, some body⟩

/-- The POST complete handler (part_003 lines 211 to 225). Validation (line
215) requires truthy fileId, key, fileName, sizeBytes and contentType; then
one INSERT appends a completed row with completed_at set; no prior row is
read and no status is inspected. -/
def completeSingle (bucketConfig : BucketConfig) (db : List FileRow)
    (req : CompleteRequest) (now : Int) : List FileRow × HandlerResponse :=
  if ¬ truthyStr req.fileId ∨ ¬ truthyStr req.key ∨ ¬ truthyStr req.fileName ∨
      ¬ truthyNum req.sizeBytes ∨ ¬ truthyStr req.contentType then
    (db, HandlerResponse.jsonError "Missing required fields for completion" 400)
  else
    (db ++ [{ id := req.fileId.getD "", key := req.key.getD "",
              file_name := req.fileName.getD "", size_bytes := req.sizeBytes,
              content_type := req.contentType, bucket_name := bucketConfig.name,
              bucket_id := bucketConfig.id, status := FileStatus.completed,
              completed_at := some now }],
      HandlerResponse.completeOk (req.fileId.getD ""))

/-! ## S3 client cache, from src/unnamed/part_001.

The module-level map s3ClientCache (line 100) is read by getS3CacheEntry and
written by setS3CacheEntry. The POST upload handler (lines 184 to 218) reads
the cache synchronously, and on a miss runs the loader (decryptToken, two
decryptSecret calls and the S3Client construction, lines 190 to 211) across
several awaits before writing the entry back. Tasks interleave only at await
points, so a handler execution for one session key is two atomic steps: the
cache check, and later the loader completion plus cache write. A cache entry
is identified by the task that constructed it. -/

/-- A cache entry, identified by the task whose loader built it. -/
structure CacheEntry where
  builtBy : Nat
deriving DecidableEq, Repr

/-- Progress of one request task through the upload handler for a fixed
session key. -/
inductive TaskPhase where
  | start
  | loading
  | done (used : CacheEntry)
deriving DecidableEq, Repr

/-- Shared state: the cache slot for the one session key under discussion,
the number of loader executions so far, and each task phase. -/
structure CacheSystem where
  cache : Option CacheEntry
  loaderRuns : Nat
  tasks : List TaskPhase
deriving DecidableEq, Repr

/-- One scheduler step running task i to its next await point: at start the
task performs getS3CacheEntry and either finishes with the cached entry (hit)
or begins the loader (miss); a loading task finishes its loader (counted) and
performs setS3CacheEntry. Done tasks do nothing. -/
def cacheStep (sys : CacheSystem) (i : Nat) : CacheSystem :=
  match sys.tasks.get? i with
  | none => sys
  | some TaskPhase.start =>
    match sys.cache with
    | some e => { sys with tasks := sys.tasks.set i (TaskPhase.done e) }
    | none => { sys with tasks := sys.tasks.set i TaskPhase.loading }
  | some TaskPhase.loading =>
    { sys with cache := some ⟨i⟩, loaderRuns := sys.loaderRuns + 1,
               tasks := sys.tasks.set i (TaskPhase.done ⟨i⟩) }
  | some (TaskPhase.done _) => sys

/-- Run a schedule of task steps. -/
def cacheRun (sys : CacheSystem) (sched : List Nat) : CacheSystem :=
  sched.foldl cacheStep sys

/-- Two tasks arriving at an empty cache slot for the same unseen session
key. -/
def twoTasksInit : CacheSystem :=
  ⟨none, 0, [TaskPhase.start, TaskPhase.start]⟩

/-! ## Helper lemmas: BigInt bitwise operations as arithmetic. -/

/-- Clearing bits below a block of low ones: for a number whose low k bits
are all ones, ldiff by n with n below 2 to the k subtracts n. -/
theorem ldiff_low_ones (k m n : Nat) (hn : n < 2 ^ k) :
    Nat.ldiff (2 ^ k * m + (2 ^ k - 1)) n = 2 ^ k * m + (2 ^ k - 1 - n) := by
  have hpos := Nat.two_pow_pos k
  apply Nat.eq_of_testBit_eq
  intro j
  rw [Nat.testBit_ldiff]
  rw [Nat.testBit_mul_pow_two_add m (show 2 ^ k - 1 < 2 ^ k by omega) j]
  rw [Nat.testBit_mul_pow_two_add m (show 2 ^ k - 1 - n < 2 ^ k by omega) j]
  by_cases hj : j < k
  · simp only [if_pos hj]
    have h1 : 2 ^ k - 1 - n = 2 ^ k - (n + 1) := by omega
    rw [h1, Nat.testBit_two_pow_sub_succ hn, Nat.testBit_two_pow_sub_one]
  · simp only [if_neg hj]
    have hnj : n < 2 ^ j :=
      lt_of_lt_of_le hn (Nat.pow_le_pow_right (by norm_num) (by omega))
    rw [Nat.testBit_lt_two_pow hnj]
    simp

/-- Bitwise or of disjoint fields is addition, on Int (two complement):
if a is divisible by 2 to the k and b lies in the low k bits, the or
of a and b is their sum, whatever the sign of a. -/
theorem int_lor_eq_add {a b : Int} (k : Nat) (ha : ((2 : Int) ^ k) ∣ a) (hb : 0 ≤ b)
    (hbk : b < (2 : Int) ^ k) : Int.lor a b = a + b := by
  obtain ⟨c, rfl⟩ := ha
  lift b to Nat using hb with n
  have hnk : n < 2 ^ k := by exact_mod_cast hbk
  cases c with
  | ofNat m =>
    have h1 : (2 : Int) ^ k * Int.ofNat m = Int.ofNat (2 ^ k * m) := by
      simp only [Int.ofNat_eq_coe]
      push_cast
      ring
    rw [h1, show ((n : Int)) = Int.ofNat n from rfl]
    rw [show Int.lor (Int.ofNat (2 ^ k * m)) (Int.ofNat n) = Int.ofNat (2 ^ k * m ||| n) from rfl]
    rw [← Nat.mul_add_lt_is_or hnk m]
    simp only [Int.ofNat_eq_coe]
    push_cast
    ring
  | negSucc m =>
    have hq : 1 ≤ 2 ^ k * (m + 1) := Nat.mul_pos (Nat.two_pow_pos k) (Nat.succ_pos m)
    have h2 : ((2 ^ k * (m + 1) - 1 : Nat) : Int) = (2 : Int) ^ k * ((m : Int) + 1) - 1 := by
      push_cast [Nat.cast_sub hq]
      ring
    have h1 : (2 : Int) ^ k * Int.negSucc m = Int.negSucc (2 ^ k * (m + 1) - 1) := by
      rw [Int.negSucc_eq, Int.negSucc_eq, h2]
      ring
    have hp : 2 ^ k * (m + 1) - 1 = 2 ^ k * m + (2 ^ k - 1) := by
      have h5 := Nat.two_pow_pos k
      rw [Nat.mul_succ]
      omega
    rw [h1, show ((n : Int)) = Int.ofNat n from rfl]
    rw [show Int.lor (Int.negSucc (2 ^ k * (m + 1) - 1)) (Int.ofNat n) =
      Int.negSucc (Nat.ldiff (2 ^ k * (m + 1) - 1) n) from rfl]
    rw [hp, ldiff_low_ones k m n hnk]
    rw [Int.negSucc_eq, Int.negSucc_eq]
    have hpos := Nat.two_pow_pos k
    have h3 : ((2 ^ k * m + (2 ^ k - 1 - n) : Nat) : Int) =
        (2 : Int) ^ k * m + ((2 : Int) ^ k - 1 - n) := by
      push_cast [Nat.cast_sub (show 1 ≤ 2 ^ k by omega),
        Nat.cast_sub (show n ≤ 2 ^ k - 1 by omega)]
      ring
    have h4 : ((2 ^ k * m + (2 ^ k - 1) : Nat) : Int) =
        (2 : Int) ^ k * m + ((2 : Int) ^ k - 1) := by
      push_cast [Nat.cast_sub (show 1 ≤ 2 ^ k by omega)]
      ring
    rw [h3, h4]
    simp only [Int.ofNat_eq_coe]
    ring

/-- The sequence mask is 4095. -/
theorem sequenceMask_eq : SEQUENCE_MASK = 4095 := by decide

/-- BigInt and with the sequence mask is reduction modulo 4096, for
nonnegative values. -/
theorem land_mask_eq_mod (x : Int) (hx : 0 ≤ x) : Int.land x SEQUENCE_MASK = x % 4096 := by
  rw [sequenceMask_eq]
  lift x to Nat using hx with n
  rw [show ((n : Int)) = Int.ofNat n from rfl, show ((4095 : Int)) = Int.ofNat 4095 from rfl]
  rw [show Int.land (Int.ofNat n) (Int.ofNat 4095) = Int.ofNat (n &&& 4095) from rfl]
  have h2 : n &&& 4095 = n % 4096 := by
    have h := Nat.and_pow_two_sub_one_eq_mod n 12
    norm_num at h
    exact h
  rw [h2]
  simp only [Int.ofNat_eq_coe]
  push_cast
  rfl

/-- The assembled Snowflake id, written as plain arithmetic over the four
fields, given the field bounds. -/
theorem assembleId_eq_arith (g : SnowflakeGenerator) (hg : GenOk g) (ts s : Int)
    (hs0 : 0 ≤ s) (hs : s < 4096) :
    assembleId g ts s =
      (ts - EPOCH) * 4194304 + g.datacenterId * 131072 + g.workerId * 4096 + s := by
  obtain ⟨hw0, hw31, hd0, hd31⟩ := hg
  unfold assembleId
  have hshT : ∀ x : Int, x <<< TIMESTAMP_SHIFT = x * 4194304 := by
    intro x
    rw [show TIMESTAMP_SHIFT = ((22 : Nat) : Int) by decide, Int.shiftLeft_eq_mul_pow]
    norm_num
  have hshD : ∀ x : Int, x <<< DATACENTER_ID_SHIFT = x * 131072 := by
    intro x
    rw [show DATACENTER_ID_SHIFT = ((17 : Nat) : Int) by decide, Int.shiftLeft_eq_mul_pow]
    norm_num
  have hshW : ∀ x : Int, x <<< WORKER_ID_SHIFT = x * 4096 := by
    intro x
    rw [show WORKER_ID_SHIFT = ((12 : Nat) : Int) by decide, Int.shiftLeft_eq_mul_pow]
    norm_num
  rw [hshT, hshD, hshW]
  have e22 : ((2 : Int) ^ 22) = 4194304 := by norm_num
  have e17 : ((2 : Int) ^ 17) = 131072 := by norm_num
  have e12 : ((2 : Int) ^ 12) = 4096 := by norm_num
  rw [int_lor_eq_add 22 ⟨ts - EPOCH, by rw [e22]; ring⟩
    (mul_nonneg hd0 (by norm_num)) (by rw [e22]; omega)]
  rw [int_lor_eq_add 17 ⟨(ts - EPOCH) * 32 + g.datacenterId, by rw [e17]; ring⟩
    (mul_nonneg hw0 (by norm_num)) (by rw [e17]; omega)]
  rw [int_lor_eq_add 12 ⟨(ts - EPOCH) * 1024 + g.datacenterId * 32 + g.workerId,
    by rw [e12]; ring⟩ hs0 (by rw [e12]; exact hs)]

/-- Strict monotonicity of the id assembly in the lexicographic order of
(timestamp, sequence). -/
theorem assembleId_lt (g : SnowflakeGenerator) (hg : GenOk g) {ts1 s1 ts2 s2 : Int}
    (h1 : 0 ≤ s1) (h1b : s1 < 4096) (h2 : 0 ≤ s2) (h2b : s2 < 4096)
    (hlex : ts1 < ts2 ∨ (ts1 = ts2 ∧ s1 < s2)) :
    assembleId g ts1 s1 < assembleId g ts2 s2 := by
  rw [assembleId_eq_arith g hg ts1 s1 h1 h1b, assembleId_eq_arith g hg ts2 s2 h2 h2b]
  simp only [EPOCH]
  omega

/-- One successful nextId step: given a clock sample at or past the last
seen timestamp (clock never backward) and the tilNextMillis postcondition,
the call returns the id assembled from the post state, the post state keeps
the sequence invariant, and the post state is lexicographically above the
pre state. -/
theorem nextIdRun_step (g : SnowflakeGenerator) (st : SnowflakeState) (t tNext : Int)
    (hst : StateOk st) (ht : st.lastTimestamp ≤ t) (htn : t < tNext) :
    ∃ st1, nextIdRun g st t tNext =
        (Except.ok (assembleId g st1.lastTimestamp st1.sequence), st1) ∧
      StateOk st1 ∧
      (st.lastTimestamp < st1.lastTimestamp ∨
        (st.lastTimestamp = st1.lastTimestamp ∧ st.sequence < st1.sequence)) := by
  obtain ⟨hs0, hs1⟩ := hst
  simp only [nextIdRun]
  rw [if_neg (by omega : ¬ t < st.lastTimestamp)]
  by_cases heq : st.lastTimestamp = t
  · rw [if_pos heq]
    have hml := land_mask_eq_mod (st.sequence + 1) (by omega)
    by_cases hz : Int.land (st.sequence + 1) SEQUENCE_MASK = 0
    · rw [if_pos hz]
      refine ⟨⟨Int.land (st.sequence + 1) SEQUENCE_MASK, tNext⟩, rfl, ?_, ?_⟩
      · rw [hz] at hml ⊢
        exact ⟨le_refl 0, by norm_num⟩
      · exact Or.inl (show st.lastTimestamp < tNext by omega)
    · rw [if_neg hz]
      refine ⟨⟨Int.land (st.sequence + 1) SEQUENCE_MASK, t⟩, rfl, ?_, ?_⟩
      · rw [hml] at hz ⊢
        exact ⟨show (0 : Int) ≤ (st.sequence + 1) % 4096 by omega,
          show (st.sequence + 1) % 4096 < 4096 by omega⟩
      · refine Or.inr ⟨heq, ?_⟩
        rw [hml] at hz ⊢
        show st.sequence < (st.sequence + 1) % 4096
        omega
  · rw [if_neg heq]
    exact ⟨⟨0, t⟩, rfl, ⟨le_refl 0, by norm_num⟩,
      Or.inl (show st.lastTimestamp < t by omega)⟩

/-- Along any valid clock trace, a run of nextId calls succeeds, the ids are
pairwise strictly increasing, and every id is above the assembly of the
starting state. -/
theorem runIds_pairwise_aux (g : SnowflakeGenerator) (hg : GenOk g) :
    ∀ (trace : List ClockObs) (st : SnowflakeState), StateOk st →
      validFrom g st trace = true →
      ∃ ids st2, runIds g st trace = some (ids, st2) ∧
        List.Pairwise (· < ·) ids ∧
        (∀ x ∈ ids, assembleId g st.lastTimestamp st.sequence < x) := by
  intro trace
  induction trace with
  | nil =>
    intro st _ _
    exact ⟨[], st, rfl, List.Pairwise.nil, by simp⟩
  | cons o os ih =>
    intro st hst hv
    simp only [validFrom, Bool.and_eq_true, decide_eq_true_eq] at hv
    obtain ⟨⟨ht, htn⟩, hv2⟩ := hv
    obtain ⟨st1, heq, hst1, hlex⟩ := nextIdRun_step g st o.t o.tNext hst ht htn
    rw [show (nextIdRun g st o.t o.tNext).2 = st1 by rw [heq]] at hv2
    obtain ⟨ids, st2, hrun, hpair, hlt⟩ := ih st1 hst1 hv2
    refine ⟨assembleId g st1.lastTimestamp st1.sequence :: ids, st2, ?_, ?_, ?_⟩
    · simp only [runIds, heq, hrun]
    · exact List.Pairwise.cons (fun x hx => hlt x hx) hpair
    · intro x hx
      rcases List.mem_cons.mp hx with h | h
      · subst h
        exact assembleId_lt g hg hst.1 hst.2 hst1.1 hst1.2 hlex
      · exact lt_trans (assembleId_lt g hg hst.1 hst.2 hst1.1 hst1.2 hlex) (hlt x h)

/-- A generator accepted by the constructor satisfies the range
invariant. -/
theorem mkSnowflakeGenerator_ok {w dc : Int} {g : SnowflakeGenerator}
    (hmk : mkSnowflakeGenerator w dc = Except.ok g) : GenOk g := by
  unfold mkSnowflakeGenerator at hmk
  rw [show MAX_WORKER_ID = 31 by decide, show MAX_DATACENTER_ID = 31 by decide] at hmk
  split_ifs at hmk with h1 h2
  simp only [Except.ok.injEq] at hmk
  subst hmk
  exact ⟨show (0 : Int) ≤ w by omega, show w ≤ 31 by omega,
    show (0 : Int) ≤ dc by omega, show dc ≤ 31 by omega⟩

/-- C4: for every finite sequence of successful nextId calls on one
SnowflakeGenerator instance with a clock that never moves backward, the
returned ids are pairwise strictly increasing; in particular no two calls on
the same instance return equal ids. -/
theorem snowflake_ids_strictly_increasing (w dc : Int) (g : SnowflakeGenerator)
    (hmk : mkSnowflakeGenerator w dc = Except.ok g) (trace : List ClockObs)
    (hv : validFrom g initialState trace = true) :
    ∃ ids st2, runIds g initialState trace = some (ids, st2) ∧
      List.Pairwise (· < ·) ids := by
  have hg : GenOk g := mkSnowflakeGenerator_ok hmk
  have hst : StateOk initialState := ⟨le_refl 0, show (0 : Int) < 4096 by norm_num⟩
  obtain ⟨ids, st2, hrun, hpair, _⟩ := runIds_pairwise_aux g hg trace initialState hst hv
  exact ⟨ids, st2, hrun, hpair⟩

/-- Witness for C4 at a concrete generator and a concrete three-call trace
that stays inside one millisecond for the first two calls. -/
theorem snowflake_ids_strictly_increasing_witness :
    mkSnowflakeGenerator 1 1 = Except.ok ⟨1, 1⟩ ∧
    validFrom ⟨1, 1⟩ initialState [⟨100, 101⟩, ⟨100, 101⟩, ⟨105, 106⟩] = true ∧
    ∃ ids st2,
      runIds ⟨1, 1⟩ initialState [⟨100, 101⟩, ⟨100, 101⟩, ⟨105, 106⟩] = some (ids, st2) ∧
      List.Pairwise (· < ·) ids :=
  ⟨rfl, by decide,
    snowflake_ids_strictly_increasing 1 1 ⟨1, 1⟩ rfl
      [⟨100, 101⟩, ⟨100, 101⟩, ⟨105, 106⟩] (by decide)⟩

/-- C5: a nextId call that observes a clock sample strictly before the last
seen timestamp fails with the clock-skew error, produces no id, leaves the
generator state unchanged, and any later call with a recovered clock (sample
at or past the last seen timestamp) succeeds. -/
theorem snowflake_clock_skew (g : SnowflakeGenerator) (st : SnowflakeState) (t tNext : Int)
    (hskew : t < st.lastTimestamp) :
    nextIdRun g st t tNext =
      (Except.error "Clock moved backwards. Refusing to generate id.", st) ∧
    ∀ t2 tNext2, st.lastTimestamp ≤ t2 →
      ∃ i st2, nextIdRun g st t2 tNext2 = (Except.ok i, st2) := by
  constructor
  · simp only [nextIdRun]
    rw [if_pos hskew]
  · intro t2 tNext2 h2
    simp only [nextIdRun]
    rw [if_neg (by omega : ¬ t2 < st.lastTimestamp)]
    exact ⟨_, _, rfl⟩

/-- Witness for C5: a backward clock jump from 50 to 49 is rejected without
touching the state, and a recovered clock at 60 succeeds. -/
theorem snowflake_clock_skew_witness :
    (49 : Int) < (SnowflakeState.mk 0 50).lastTimestamp ∧
    nextIdRun ⟨1, 1⟩ ⟨0, 50⟩ 49 50 =
      (Except.error "Clock moved backwards. Refusing to generate id.", ⟨0, 50⟩) ∧
    ∃ i st2, nextIdRun ⟨1, 1⟩ ⟨0, 50⟩ 60 61 = (Except.ok i, st2) :=
  ⟨by decide,
    (snowflake_clock_skew ⟨1, 1⟩ ⟨0, 50⟩ 49 50 (by decide)).1,
    (snowflake_clock_skew ⟨1, 1⟩ ⟨0, 50⟩ 49 50 (by decide)).2 60 61 (by decide)⟩

/-- C9: getSnowflakeGenerator builds a brand-new generator (sequence 0,
last-seen timestamp -1) on every call, so two id-generation calls made by
distinct requests in the same millisecond, with the default worker and
datacenter id 1, return the same id string: uniqueness holds only within one
generator instance, not across requests. -/
theorem fresh_generator_duplicate_ids (t tNext tNext2 : Int) (ht : 0 ≤ t) :
    ∃ i, getSnowflakeGenerator 1 1 t tNext = Except.ok i ∧
      getSnowflakeGenerator 1 1 t tNext2 = Except.ok i := by
  have hne : ¬ initialState.lastTimestamp = t := by
    simp only [initialState]
    omega
  have hlt : ¬ t < initialState.lastTimestamp := by
    simp only [initialState]
    omega
  have hrun : ∀ tn : Int, nextIdRun ⟨1, 1⟩ initialState t tn =
      (Except.ok (assembleId ⟨1, 1⟩ t 0), ⟨0, t⟩) := by
    intro tn
    simp only [nextIdRun]
    rw [if_neg hlt, if_neg hne]
  refine ⟨toString (assembleId ⟨1, 1⟩ t 0), ?_, ?_⟩ <;>
    · simp only [getSnowflakeGenerator]
      rw [show mkSnowflakeGenerator 1 1 = Except.ok ⟨1, 1⟩ from rfl]
      dsimp only
      rw [hrun _]

/-- Witness for C9: two requests presigning in the same millisecond 100 get
the same file id. -/
theorem fresh_generator_duplicate_ids_witness :
    (0 : Int) ≤ 100 ∧
    ∃ i, getSnowflakeGenerator 1 1 100 101 = Except.ok i ∧
      getSnowflakeGenerator 1 1 100 102 = Except.ok i :=
  ⟨by decide, fresh_generator_duplicate_ids 100 101 102 (by decide)⟩

/-! ## Field-level encryption claims. -/

/-- C6: field-level envelope encryption round-trips: decrypting the envelope
produced by encrypting a plaintext under the valid 32-byte master key with
that same key returns exactly the plaintext. -/
theorem encrypt_decrypt_roundtrip (key : List Nat) (p : String) (hkey : key.length = 32) :
    decryptSecret key (encryptSecret key p) = Except.ok p := by
  unfold decryptSecret encryptSecret compactEncryptDir compactDecrypt
  dsimp only
  rw [if_pos rfl]
  unfold textDecode textEncode
  dsimp only
  rw [List.map_map]
  rw [show (Char.ofNat ∘ Char.toNat) = id from funext fun c => Char.ofNat_toNat c]
  rw [List.map_id]

/-- Witness for C6 at a concrete 32-byte key and plaintext. -/
theorem encrypt_decrypt_roundtrip_witness :
    (List.replicate 32 0).length = 32 ∧
    decryptSecret (List.replicate 32 0)
        (encryptSecret (List.replicate 32 0) "bucket-secret") =
      Except.ok "bucket-secret" :=
  ⟨by decide,
    encrypt_decrypt_roundtrip (List.replicate 32 0) "bucket-secret" (by decide)⟩

/-- C3 counterexample: the worker field-decryption function decryptSecret of
src/src/jose.ts checks the master-key length on the call itself and surfaces
the wrong-length error on that individual request, contradicting the claim
that the 32-byte length is validated only at startup and never
per-request. -/
theorem per_request_key_length_check :
    joseDecryptSecret (compactEncryptDir [1, 2, 3] (List.replicate 32 0)) [0] =
      Except.error "Decoded ENCRYPTION_KEY is not 32 bytes long!" := rfl

/-- C3 amended: the node server of src/src/index.ts validates the master-key
length once at startup and its decryptSecret performs no per-call length
check (it returns the plaintext or the one generic failure); but the worker
decryptSecret of src/src/jose.ts re-validates the 32-byte length on every
call, so on the worker routes a wrong-length key is an error surfaced per
request. -/
theorem master_key_length_check_locations (key : List Nat) (hk : key.length ≠ 32) :
    startupCheckMasterKey key =
      Except.error "Invalid ENCRYPTION_KEY length. Must be 32 bytes (256 bits) for A256GCM." ∧
    (∀ jwe, joseDecryptSecret jwe key =
      Except.error "Decoded ENCRYPTION_KEY is not 32 bytes long!") ∧
    (∀ jwe, decryptSecret key jwe = Except.ok (textDecode jwe.payload) ∨
      decryptSecret key jwe = Except.error "Failed to decrypt secret.") := by
  refine ⟨?_, ?_, ?_⟩
  · unfold startupCheckMasterKey
    rw [if_pos hk]
  · intro jwe
    unfold joseDecryptSecret
    rw [if_pos hk]
  · intro jwe
    unfold decryptSecret compactDecrypt
    by_cases h : jwe.jweKey = key
    · rw [if_pos h]
      exact Or.inl rfl
    · rw [if_neg h]
      exact Or.inr rfl

/-- Witness for the amended C3 at a one-byte key. -/
theorem master_key_length_check_locations_witness :
    ([0] : List Nat).length ≠ 32 ∧
    startupCheckMasterKey [0] =
      Except.error "Invalid ENCRYPTION_KEY length. Must be 32 bytes (256 bits) for A256GCM." ∧
    joseDecryptSecret (compactEncryptDir [9] (List.replicate 32 1)) [0] =
      Except.error "Decoded ENCRYPTION_KEY is not 32 bytes long!" ∧
    (decryptSecret [0] (compactEncryptDir [9] (List.replicate 32 1)) =
        Except.ok (textDecode [9]) ∨
      decryptSecret [0] (compactEncryptDir [9] (List.replicate 32 1)) =
        Except.error "Failed to decrypt secret.") :=
  ⟨by decide,
    (master_key_length_check_locations [0] (by decide)).1,
    (master_key_length_check_locations [0] (by decide)).2.1 _,
    (master_key_length_check_locations [0] (by decide)).2.2 _⟩

/-! ## Upload coordinator claims. -/

/-- A row matching the updated id is mapped by the UPDATE. -/
theorem mem_updateRows {db : List FileRow} {r : FileRow} (fid : String)
    (f : FileRow → FileRow) (hmem : r ∈ db) (hid : r.id = fid) :
    f r ∈ updateRows db fid f := by
  unfold updateRows
  refine List.mem_map.mpr ⟨r, hmem, ?_⟩
  rw [if_pos hid]

/-- A parts value accepted by Array.isArray is truthy. -/
theorem partsFalsy_of_isArray {p : PartsField} (hp : partsIsArray p = true) :
    partsFalsy p = false := by
  cases p <;> simp_all [partsIsArray, partsFalsy]

/-- multipart/complete on a validated request with backend success: the
UPDATE sets status completed, completed_at and size_bytes, and the response
carries the cdn final url. -/
theorem mpc_valid_success (bc : BucketConfig) (db : List FileRow)
    (req : MultipartCompleteRequest) (now : Int)
    (hfid : truthyStr req.fileId = true) (hkey : truthyStr req.key = true)
    (huid : truthyStr req.uploadId = true) (hparts : partsIsArray req.parts = true) :
    multipartComplete bc db req true now =
      ⟨updateRows db (req.fileId.getD "") (fun r =>
          { r with status := FileStatus.completed, completed_at := some now,
                   size_bytes := req.sizeBytes }),
        HandlerResponse.multipartOk (bc.cdnUrl ++ "/" ++ req.key.getD ""), true,
        some (xmlBody (partsList req.parts))⟩ := by
  have hfal := partsFalsy_of_isArray hparts
  unfold multipartComplete
  rw [if_neg (by simp [hfid, hkey, huid, hfal, hparts])]
  rw [if_neg (by simp)]

/-- multipart/complete on a validated request with backend failure: the
UPDATE sets status failed and an error response is returned. -/
theorem mpc_valid_failure (bc : BucketConfig) (db : List FileRow)
    (req : MultipartCompleteRequest) (now : Int)
    (hfid : truthyStr req.fileId = true) (hkey : truthyStr req.key = true)
    (huid : truthyStr req.uploadId = true) (hparts : partsIsArray req.parts = true) :
    multipartComplete bc db req false now =
      ⟨updateRows db (req.fileId.getD "") (fun r => { r with status := FileStatus.failed }),
        HandlerResponse.jsonError "Failed to complete multipart upload" 500, true,
        some (xmlBody (partsList req.parts))⟩ := by
  have hfal := partsFalsy_of_isArray hparts
  unfold multipartComplete
  rw [if_neg (by simp [hfid, hkey, huid, hfal, hparts])]
  rw [if_pos (by simp)]

/-- The single-part complete handler on a validated request: one INSERT of a
completed row and an acknowledgement, with no read of any existing row. -/
theorem completeSingle_valid_eq (bc : BucketConfig) (db : List FileRow)
    (creq : CompleteRequest) (now : Int)
    (h1 : truthyStr creq.fileId = true) (h2 : truthyStr creq.key = true)
    (h3 : truthyStr creq.fileName = true) (h4 : truthyNum creq.sizeBytes = true)
    (h5 : truthyStr creq.contentType = true) :
    completeSingle bc db creq now =
      (db ++ [{ id := creq.fileId.getD "", key := creq.key.getD "",
                file_name := creq.fileName.getD "", size_bytes := creq.sizeBytes,
                content_type := creq.contentType, bucket_name := bc.name,
                bucket_id := bc.id, status := FileStatus.completed,
                completed_at := some now }],
        HandlerResponse.completeOk (creq.fileId.getD "")) := by
  unfold completeSingle
  rw [if_neg (by simp [h1, h2, h3, h4, h5])]

/-- C7: for every multipart/complete request that passes validation, with a
record matching the supplied fileId present: on backend success the record
transitions to completed with the supplied size and the completion
timestamp, and the response final url is cdnUrl/key; on backend non-success
the record transitions to failed and an error is returned. -/
theorem multipart_complete_outcomes (bc : BucketConfig) (db : List FileRow)
    (req : MultipartCompleteRequest) (backendOk : Bool) (now : Int) (r : FileRow)
    (hfid : truthyStr req.fileId = true) (hkey : truthyStr req.key = true)
    (huid : truthyStr req.uploadId = true) (hparts : partsIsArray req.parts = true)
    (hmem : r ∈ db) (hid : r.id = req.fileId.getD "") :
    (backendOk = true →
      (multipartComplete bc db req backendOk now).response =
        HandlerResponse.multipartOk (bc.cdnUrl ++ "/" ++ req.key.getD "") ∧
      { r with status := FileStatus.completed, completed_at := some now,
               size_bytes := req.sizeBytes } ∈ (multipartComplete bc db req backendOk now).db) ∧
    (backendOk = false →
      (multipartComplete bc db req backendOk now).response =
        HandlerResponse.jsonError "Failed to complete multipart upload" 500 ∧
      { r with status := FileStatus.failed } ∈ (multipartComplete bc db req backendOk now).db) := by
  constructor
  · intro hb
    subst hb
    rw [mpc_valid_success bc db req now hfid hkey huid hparts]
    exact ⟨rfl, mem_updateRows _ _ hmem hid⟩
  · intro hb
    subst hb
    rw [mpc_valid_failure bc db req now hfid hkey huid hparts]
    exact ⟨rfl, mem_updateRows _ _ hmem hid⟩

/-- Witness for C7: a concrete pending record completed with size 10 on
backend success, and failed on backend failure. -/
theorem multipart_complete_outcomes_witness :
    truthyStr (some "1") = true ∧
    partsIsArray (PartsField.arr [⟨1, "abc"⟩]) = true ∧
    (⟨"1", "k", "f", none, some "ct", "b", 7, FileStatus.pending, none⟩ : FileRow) ∈
      [(⟨"1", "k", "f", none, some "ct", "b", 7, FileStatus.pending, none⟩ : FileRow)] ∧
    (true = true →
      (multipartComplete ⟨7, "b", "r", "e", "cdn"⟩
          [⟨"1", "k", "f", none, some "ct", "b", 7, FileStatus.pending, none⟩]
          ⟨some "1", some "k", some "u", PartsField.arr [⟨1, "abc"⟩], some 10⟩ true 99).response =
        HandlerResponse.multipartOk ("cdn" ++ "/" ++ (some "k").getD "") ∧
      ({ (⟨"1", "k", "f", none, some "ct", "b", 7, FileStatus.pending, none⟩ : FileRow) with
          status := FileStatus.completed, completed_at := some 99, size_bytes := some 10 } ∈
        (multipartComplete ⟨7, "b", "r", "e", "cdn"⟩
          [⟨"1", "k", "f", none, some "ct", "b", 7, FileStatus.pending, none⟩]
          ⟨some "1", some "k", some "u", PartsField.arr [⟨1, "abc"⟩], some 10⟩ true 99).db)) ∧
    (true = false →
      (multipartComplete ⟨7, "b", "r", "e", "cdn"⟩
          [⟨"1", "k", "f", none, some "ct", "b", 7, FileStatus.pending, none⟩]
          ⟨some "1", some "k", some "u", PartsField.arr [⟨1, "abc"⟩], some 10⟩ true 99).response =
        HandlerResponse.jsonError "Failed to complete multipart upload" 500 ∧
      ({ (⟨"1", "k", "f", none, some "ct", "b", 7, FileStatus.pending, none⟩ : FileRow) with
          status := FileStatus.failed } ∈
        (multipartComplete ⟨7, "b", "r", "e", "cdn"⟩
          [⟨"1", "k", "f", none, some "ct", "b", 7, FileStatus.pending, none⟩]
          ⟨some "1", some "k", some "u", PartsField.arr [⟨1, "abc"⟩], some 10⟩ true 99).db)) :=
  ⟨by decide, by decide, by decide,
    (multipart_complete_outcomes ⟨7, "b", "r", "e", "cdn"⟩
      [⟨"1", "k", "f", none, some "ct", "b", 7, FileStatus.pending, none⟩]
      ⟨some "1", some "k", some "u", PartsField.arr [⟨1, "abc"⟩], some 10⟩ true 99
      ⟨"1", "k", "f", none, some "ct", "b", 7, FileStatus.pending, none⟩
      (by decide) (by decide) (by decide) (by decide) (by decide) (by decide)).1,
    (multipart_complete_outcomes ⟨7, "b", "r", "e", "cdn"⟩
      [⟨"1", "k", "f", none, some "ct", "b", 7, FileStatus.pending, none⟩]
      ⟨some "1", some "k", some "u", PartsField.arr [⟨1, "abc"⟩], some 10⟩ true 99
      ⟨"1", "k", "f", none, some "ct", "b", 7, FileStatus.pending, none⟩
      (by decide) (by decide) (by decide) (by decide) (by decide) (by decide)).2⟩

/-- C1 counterexample: a record already in the terminal status failed is
moved to completed by multipart/complete on backend success, and the step is
acknowledged rather than rejected: no InvalidStateError exists and the
terminal status is not preserved. -/
theorem terminal_record_overwritten :
    ((multipartComplete ⟨7, "b", "r", "e", "cdn"⟩
        [⟨"1", "k", "f", none, some "ct", "b", 7, FileStatus.failed, none⟩]
        ⟨some "1", some "k", some "u", PartsField.arr [⟨1, "abc"⟩], some 10⟩ true 99).db =
      [⟨"1", "k", "f", some 10, some "ct", "b", 7, FileStatus.completed, some 99⟩]) ∧
    ((multipartComplete ⟨7, "b", "r", "e", "cdn"⟩
        [⟨"1", "k", "f", none, some "ct", "b", 7, FileStatus.failed, none⟩]
        ⟨some "1", some "k", some "u", PartsField.arr [⟨1, "abc"⟩], some 10⟩ true 99).response =
      HandlerResponse.multipartOk "cdn/k") := by
  decide

/-- C1 amended: neither completion handler inspects the prior status of the
file record. multipart/complete updates the matching record unconditionally,
so a record in a terminal status (completed or failed) is moved to completed
on backend success with a success response; and single-part complete always
inserts a fresh completed row and acknowledges, whatever rows (terminal
included) the table already holds. -/
theorem no_terminal_state_protection (bc : BucketConfig) (db : List FileRow)
    (req : MultipartCompleteRequest) (now : Int) (r : FileRow)
    (hterm : r.status = FileStatus.completed ∨ r.status = FileStatus.failed)
    (hmem : r ∈ db) (hid : r.id = req.fileId.getD "")
    (hfid : truthyStr req.fileId = true) (hkey : truthyStr req.key = true)
    (huid : truthyStr req.uploadId = true) (hparts : partsIsArray req.parts = true)
    (creq : CompleteRequest)
    (hc1 : truthyStr creq.fileId = true) (hc2 : truthyStr creq.key = true)
    (hc3 : truthyStr creq.fileName = true) (hc4 : truthyNum creq.sizeBytes = true)
    (hc5 : truthyStr creq.contentType = true) :
    ({ r with status := FileStatus.completed, completed_at := some now,
              size_bytes := req.sizeBytes } ∈ (multipartComplete bc db req true now).db ∧
      (multipartComplete bc db req true now).response =
        HandlerResponse.multipartOk (bc.cdnUrl ++ "/" ++ req.key.getD "")) ∧
    (completeSingle bc db creq now).2 =
      HandlerResponse.completeOk (creq.fileId.getD "") := by
  refine ⟨?_, ?_⟩
  · rw [mpc_valid_success bc db req now hfid hkey huid hparts]
    exact ⟨mem_updateRows _ _ hmem hid, rfl⟩
  · rw [completeSingle_valid_eq bc db creq now hc1 hc2 hc3 hc4 hc5]

/-- Witness for the amended C1 at a concrete failed record. -/
theorem no_terminal_state_protection_witness :
    (FileStatus.failed = FileStatus.completed ∨ FileStatus.failed = FileStatus.failed) ∧
    ({ (⟨"1", "k", "f", none, some "ct", "b", 7, FileStatus.failed, none⟩ : FileRow) with
        status := FileStatus.completed, completed_at := some 99, size_bytes := some 10 } ∈
      (multipartComplete ⟨7, "b", "r", "e", "cdn"⟩
        [⟨"1", "k", "f", none, some "ct", "b", 7, FileStatus.failed, none⟩]
        ⟨some "1", some "k", some "u", PartsField.arr [⟨1, "abc"⟩], some 10⟩ true 99).db ∧
      (multipartComplete ⟨7, "b", "r", "e", "cdn"⟩
        [⟨"1", "k", "f", none, some "ct", "b", 7, FileStatus.failed, none⟩]
        ⟨some "1", some "k", some "u", PartsField.arr [⟨1, "abc"⟩], some 10⟩ true 99).response =
        HandlerResponse.multipartOk ("cdn" ++ "/" ++ (some "k").getD "")) ∧
    (completeSingle ⟨7, "b", "r", "e", "cdn"⟩
      [⟨"1", "k", "f", none, some "ct", "b", 7, FileStatus.failed, none⟩]
      ⟨some "1", some "k2", some "f2", some 5, some "ct"⟩ 99).2 =
      HandlerResponse.completeOk ((some "1").getD "") :=
  ⟨Or.inr rfl,
    no_terminal_state_protection ⟨7, "b", "r", "e", "cdn"⟩
      [⟨"1", "k", "f", none, some "ct", "b", 7, FileStatus.failed, none⟩]
      ⟨some "1", some "k", some "u", PartsField.arr [⟨1, "abc"⟩], some 10⟩ 99
      ⟨"1", "k", "f", none, some "ct", "b", 7, FileStatus.failed, none⟩
      (Or.inr rfl) (by decide) (by decide) (by decide) (by decide) (by decide) (by decide)
      ⟨some "1", some "k2", some "f2", some 5, some "ct"⟩
      (by decide) (by decide) (by decide) (by decide) (by decide)⟩

/-- C2 counterexample: a multipart/complete request whose parts list is the
empty array passes validation, the signed finalize call is issued to the
backend with an empty manifest, and on success a persistence write occurs,
contradicting rejection before contacting the backend. -/
theorem empty_parts_not_rejected :
    ((multipartComplete ⟨7, "b", "r", "e", "cdn"⟩
        [⟨"1", "k", "f", none, some "ct", "b", 7, FileStatus.pending, none⟩]
        ⟨some "1", some "k", some "u", PartsField.arr [], some 5⟩ true 42).backendCalled = true) ∧
    ((multipartComplete ⟨7, "b", "r", "e", "cdn"⟩
        [⟨"1", "k", "f", none, some "ct", "b", 7, FileStatus.pending, none⟩]
        ⟨some "1", some "k", some "u", PartsField.arr [], some 5⟩ true 42).signedBody =
      some "<CompleteMultipartUpload></CompleteMultipartUpload>") ∧
    ((multipartComplete ⟨7, "b", "r", "e", "cdn"⟩
        [⟨"1", "k", "f", none, some "ct", "b", 7, FileStatus.pending, none⟩]
        ⟨some "1", some "k", some "u", PartsField.arr [], some 5⟩ true 42).db =
      [⟨"1", "k", "f", some 5, some "ct", "b", 7, FileStatus.completed, some 42⟩]) := by
  decide

/-- C2 amended: the multipart/complete validation only requires fileId, key
and uploadId to be truthy and parts to be an array; the empty array passes,
and the signed finalize call is then issued with an empty XML manifest, the
empty-parts case being left to the backend. -/
theorem empty_parts_passes_validation (bc : BucketConfig) (db : List FileRow)
    (fid k uid : String) (sz : Option Int) (backendOk : Bool) (now : Int)
    (h1 : fid ≠ "") (h2 : k ≠ "") (h3 : uid ≠ "") :
    (multipartComplete bc db ⟨some fid, some k, some uid, PartsField.arr [], sz⟩
        backendOk now).backendCalled = true ∧
    (multipartComplete bc db ⟨some fid, some k, some uid, PartsField.arr [], sz⟩
        backendOk now).signedBody =
      some "<CompleteMultipartUpload></CompleteMultipartUpload>" := by
  have hf : truthyStr (some fid) = true := by simp [truthyStr, h1]
  have hk : truthyStr (some k) = true := by simp [truthyStr, h2]
  have hu : truthyStr (some uid) = true := by simp [truthyStr, h3]
  cases backendOk
  · rw [mpc_valid_failure bc db ⟨some fid, some k, some uid, PartsField.arr [], sz⟩
      now hf hk hu rfl]
    exact ⟨rfl, rfl⟩
  · rw [mpc_valid_success bc db ⟨some fid, some k, some uid, PartsField.arr [], sz⟩
      now hf hk hu rfl]
    exact ⟨rfl, rfl⟩

/-- Witness for the amended C2 at concrete fields. -/
theorem empty_parts_passes_validation_witness :
    ("1" : String) ≠ "" ∧
    (multipartComplete ⟨7, "b", "r", "e", "cdn"⟩ []
        ⟨some "1", some "k", some "u", PartsField.arr [], some 5⟩ true 0).backendCalled = true ∧
    (multipartComplete ⟨7, "b", "r", "e", "cdn"⟩ []
        ⟨some "1", some "k", some "u", PartsField.arr [], some 5⟩ true 0).signedBody =
      some "<CompleteMultipartUpload></CompleteMultipartUpload>" :=
  ⟨by decide,
    empty_parts_passes_validation ⟨7, "b", "r", "e", "cdn"⟩ [] "1" "k" "u" (some 5) true 0
      (by decide) (by decide) (by decide)⟩

/-- C10: multipart/complete validation requires fileId, key, uploadId and an
array-valued parts but not sizeBytes: a request omitting sizeBytes passes
validation, and on backend success the matching record is persisted as
completed with a null size_bytes. -/
theorem sizeBytes_not_required (bc : BucketConfig) (db : List FileRow)
    (fid k uid : String) (parts : List PartEntry) (now : Int) (r : FileRow)
    (h1 : fid ≠ "") (h2 : k ≠ "") (h3 : uid ≠ "")
    (hmem : r ∈ db) (hid : r.id = fid) :
    (multipartComplete bc db ⟨some fid, some k, some uid, PartsField.arr parts, none⟩
        true now).response = HandlerResponse.multipartOk (bc.cdnUrl ++ "/" ++ k) ∧
    { r with status := FileStatus.completed, completed_at := some now,
             size_bytes := none } ∈
      (multipartComplete bc db ⟨some fid, some k, some uid, PartsField.arr parts, none⟩
        true now).db := by
  have hf : truthyStr (some fid) = true := by simp [truthyStr, h1]
  have hk : truthyStr (some k) = true := by simp [truthyStr, h2]
  have hu : truthyStr (some uid) = true := by simp [truthyStr, h3]
  rw [mpc_valid_success bc db ⟨some fid, some k, some uid, PartsField.arr parts, none⟩
    now hf hk hu rfl]
  exact ⟨rfl, mem_updateRows _ _ hmem hid⟩

/-- Witness for C10: a pending record completed with a null size. -/
theorem sizeBytes_not_required_witness :
    ("1" : String) ≠ "" ∧
    (multipartComplete ⟨7, "b", "r", "e", "cdn"⟩
        [⟨"1", "k", "f", some 3, some "ct", "b", 7, FileStatus.pending, none⟩]
        ⟨some "1", some "k", some "u", PartsField.arr [⟨1, "abc"⟩], none⟩ true 42).response =
      HandlerResponse.multipartOk ("cdn" ++ "/" ++ "k") ∧
    { (⟨"1", "k", "f", some 3, some "ct", "b", 7, FileStatus.pending, none⟩ : FileRow) with
        status := FileStatus.completed, completed_at := some 42, size_bytes := none } ∈
      (multipartComplete ⟨7, "b", "r", "e", "cdn"⟩
        [⟨"1", "k", "f", some 3, some "ct", "b", 7, FileStatus.pending, none⟩]
        ⟨some "1", some "k", some "u", PartsField.arr [⟨1, "abc"⟩], none⟩ true 42).db :=
  ⟨by decide,
    (sizeBytes_not_required ⟨7, "b", "r", "e", "cdn"⟩
      [⟨"1", "k", "f", some 3, some "ct", "b", 7, FileStatus.pending, none⟩]
      "1" "k" "u" [⟨1, "abc"⟩] 42
      ⟨"1", "k", "f", some 3, some "ct", "b", 7, FileStatus.pending, none⟩
      (by decide) (by decide) (by decide) (by decide) (by decide)).1,
    (sizeBytes_not_required ⟨7, "b", "r", "e", "cdn"⟩
      [⟨"1", "k", "f", some 3, some "ct", "b", 7, FileStatus.pending, none⟩]
      "1" "k" "u" [⟨1, "abc"⟩] 42
      ⟨"1", "k", "f", some 3, some "ct", "b", 7, FileStatus.pending, none⟩
      (by decide) (by decide) (by decide) (by decide) (by decide)).2⟩

/-! ## Client-cache concurrency claims. -/

/-- C8 counterexample: when the cache checks of two concurrent tasks for the
same unseen session key both happen before either write (the schedule
task 0 check, task 1 check, task 0 load and write, task 1 load and write,
which the awaits inside the loader permit), the loader runs twice, the
second caller uses its own freshly built entry rather than the one stored by
the first, and the second write overwrites the first entry. -/
theorem concurrent_cache_misses_double_load :
    (cacheRun twoTasksInit [0, 1, 0, 1]).loaderRuns = 2 ∧
    (cacheRun twoTasksInit [0, 1, 0, 1]).tasks =
      [TaskPhase.done ⟨0⟩, TaskPhase.done ⟨1⟩] ∧
    (cacheRun twoTasksInit [0, 1, 0, 1]).cache = some ⟨1⟩ := by
  decide

/-- C8 amended: a single loader execution is guaranteed only when the two
calls are serialized. If the first task completes its loader and cache write
before the second task performs its cache check, the loader runs exactly
once and the second caller reuses the stored entry; if both checks precede
both writes, the loader runs twice (duplicate decryption) and the second
write replaces the first entry (lost update). -/
theorem cache_loader_race_characterized :
    ((cacheRun twoTasksInit [0, 0, 1]).loaderRuns = 1 ∧
      (cacheRun twoTasksInit [0, 0, 1]).tasks =
        [TaskPhase.done ⟨0⟩, TaskPhase.done ⟨0⟩] ∧
      (cacheRun twoTasksInit [0, 0, 1]).cache = some ⟨0⟩) ∧
    ((cacheRun twoTasksInit [0, 1, 0, 1]).loaderRuns = 2 ∧
      (cacheRun twoTasksInit [0, 1, 0, 1]).cache = some ⟨1⟩) := by
  decide

end S3Chunk
